import Mathlib

/-!
Verification of the FaceMatrixLab face-tracking / face-warping core.

This file is a shallow embedding, in Lean 4, of the parts of the repository
that the design document makes claims about:

* `fml/face_matrix_lab_render.py` — the solvePnP correspondence gate
  (`update_face_model`, lines 566-644) and the camera-intrinsics setup
  (`load_camera_calibration` / `setup_camera_parameters`, lines 165-327);
* `fml/face_warper.py` — the piecewise-affine warp engine
  (`warp_face_texture`, `warp_triangle`, `_is_triangle_flipped`,
  `_init_triangulation`, the Delaunay cache, `smooth_landmarks`);
* `fml/expression_driver.py` — neutral-baseline calibration
  (`calibrate_neutral_expression`) and the three expression detectors.

Numeric conventions: python/numpy float arithmetic is modelled exactly, with
`ℚ` where we need executable witnesses (geometry, intrinsics) and `ℝ` where
square roots appear (expression distances).  Machine images (`np.uint8`
arrays) are modelled as grids of exact rationals; the final `astype(np.uint8)`
quantisation is omitted because every blend weight used by the code is 0 or 1,
so the blend itself is exact.  External library calls (`cv2.Subdiv2D`,
`cv2.solvePnP`, internal OpenCV failures caught by the code's bare `except`
handlers) are modelled as oracle parameters: the claims proved here do not
depend on their values, only on how the surrounding code reacts to them.
-/

/-! ### Pose gate — `update_face_model`, face_matrix_lab_render.py lines 566-644

The method walks `self.pnp_indices`, keeps every index that is in range of
both the MediaPipe landmark list and the loaded model vertices, and only
calls `cv2.solvePnP` when at least 8 pairs were gathered (line 593:
`if len(img_points) < 8 or len(obj_points) < 8: return False`). -/

/-- The landmark indices used for the 3D-2D correspondences
(face_matrix_lab_render.py lines 92-114; the identical list appears in
test_solvepnp.py line 85). -/
def pnp_indices : List Nat :=
  [1, 168, 10, 152, 175, 33, 263, 130, 359, 70, 300, 107, 336, 19, 94, 234, 454, 172, 397]

/-- The gathering loop of `update_face_model` (lines 579-587): an index
contributes a correspondence iff it is in range of the landmark list and of
the model vertex list. -/
def gather_correspondences (numLandmarks numVertices : Nat) : List Nat :=
  pnp_indices.filter (fun idx => idx < numLandmarks && idx < numVertices)

/-- Control-flow outcome of `update_face_model` up to the solver call:
either no face was detected (line 568), or the point-count gate at line 593
returned `False` without solving, or `cv2.solvePnP` was reached (line 630). -/
inductive UpdateOutcome where
  | noFace
  | insufficientPoints (n : Nat)
  | solveAttempted (n : Nat)
deriving DecidableEq

/-- The gate portion of `update_face_model` (lines 566-636): the decision of
whether the solver is invoked depends only on the number of gathered
correspondences. -/
def update_face_model_gate (hasFace : Bool) (numLandmarks numVertices : Nat) : UpdateOutcome :=
  if !hasFace then .noFace
  else
    let n := (gather_correspondences numLandmarks numVertices).length
    if n < 8 then .insufficientPoints n else .solveAttempted n

/-! ### Camera intrinsics — `setup_camera_parameters`, lines 278-327

The method first copies `fx, fy, cx, cy` out of the loaded calibration matrix
when `self.use_solvepnp and self.K is not None` (lines 284-288).  The
50mm-estimate block (lines 299-315) is indented at method level, not inside
the `else:` branch at line 295 (that branch contains only a `print`), so it
executes unconditionally and overwrites `self.fx, self.fy, self.cx, self.cy`
— and `self.K` and `self.dist` themselves — with the estimated values. -/

/-- The four pinhole parameters of a 3x3 intrinsic matrix
`[[fx,0,cx],[0,fy,cy],[0,0,1]]`. -/
structure Intrinsics where
  fx : ℚ
  fy : ℚ
  cx : ℚ
  cy : ℚ
deriving DecidableEq

/-- The 50mm-equivalent estimated intrinsics built at lines 299-315:
`fx = (50/36)*width`, `fy = (50/36)*height`, principal point at the image
centre. -/
def estimated_intrinsics (width height : ℚ) : Intrinsics :=
  { fx := 50 / 36 * width
    fy := 50 / 36 * height
    cx := width / 2
    cy := height / 2 }

/-- Sequential-mutation model of `setup_camera_parameters` (lines 278-327).
`loadedK` is `self.K` as left by `load_camera_calibration`; `init` stands for
the parameter fields' prior (unset) values.  The first step is the
conditional at lines 284-288; the record update mirrors the unconditional
assignments at lines 304-307, which overwrite every field of the first step.
The returned value is what `self.fx ... self.cy` (and the rebuilt `self.K`
of line 310, used by `cv2.solvePnP` at line 633) hold afterwards. -/
def setup_camera_parameters (use_solvepnp : Bool) (loadedK : Option Intrinsics)
    (init : Intrinsics) (width height : ℚ) : Intrinsics :=
  let s1 : Intrinsics :=
    match use_solvepnp, loadedK with
    | true, some k => k
    | _, _ => init
  { s1 with
    fx := 50 / 36 * width
    fy := 50 / 36 * height
    cx := width / 2
    cy := height / 2 }

/-! ### Fixed-topology filtering — `_init_triangulation`, face_warper.py lines 56-66

When a triangulation table is available, the constructor keeps exactly the
triples all of whose vertex indices are `< 468`
(line 63: `if all(idx < 468 for idx in triangle)`). -/

/-- Index triple into the landmark point space. -/
abbrev TriIdx := Nat × Nat × Nat

/-- The filtering loop at lines 61-64 of `_init_triangulation`: keep a triple
iff all three indices are below 468.  No other condition is tested. -/
def filter_valid_triangles (table : List TriIdx) : List TriIdx :=
  table.filter (fun t => t.1 < 468 && t.2.1 < 468 && t.2.2 < 468)

/-- A triple references three pairwise distinct indices. -/
def pairwise_distinct (t : TriIdx) : Prop :=
  t.1 ≠ t.2.1 ∧ t.1 ≠ t.2.2 ∧ t.2.1 ≠ t.2.2

instance (t : TriIdx) : Decidable (pairwise_distinct t) := by
  unfold pairwise_distinct; infer_instance

/-! ### Delaunay cache — `warp_face_texture`, face_warper.py lines 240-248

When `self.valid_triangles` is empty the warp uses `self.cached_triangles`,
generating it from the current frame's source landmarks only when it is still
`None`.  The Delaunay result itself comes from `cv2.Subdiv2D`
(`_generate_delaunay_triangulation`, lines 82-130) and is modelled as an
oracle argument `delaunayResult`: what matters for the cache is that it is
consulted at most once. -/

/-- The triangulation-owning state of a `FaceWarper` instance
(face_warper.py lines 20, 59-74). -/
structure FaceWarperState where
  valid_triangles : List TriIdx
  cached_triangles : Option (List TriIdx)
deriving DecidableEq

/-- Lines 240-248 of `warp_face_texture`: select the triangle list for this
invocation and update the cache.  `delaunayResult` stands for the value
`_generate_delaunay_triangulation(src_landmarks_pixels)` would produce on
this call. -/
def select_use_triangles (w : FaceWarperState) (delaunayResult : List TriIdx) :
    List TriIdx × FaceWarperState :=
  if w.valid_triangles.length = 0 then
    match w.cached_triangles with
    | none => (delaunayResult, { w with cached_triangles := some delaunayResult })
    | some cached => (cached, w)
  else
    (w.valid_triangles, w)

/-! ### Landmark smoothing — `smooth_landmarks`, face_warper.py lines 348-366 -/

/-- `smooth_landmarks`: exponential smoothing of same-shaped landmark arrays,
modelled pointwise over a flat index.  Returns the current array when no
previous array exists (line 362), else
`smoothing_factor * previous + (1 - smoothing_factor) * current` (line 365). -/
noncomputable def smooth_landmarks (current : ℕ → ℝ) (previous : Option (ℕ → ℝ))
    (smoothing_factor : ℝ) : ℕ → ℝ :=
  match previous with
  | none => current
  | some prev => fun i => smoothing_factor * prev i + (1 - smoothing_factor) * current i

/-! ### Expression driver — expression_driver.py

Landmarks are MediaPipe normalized points; only the `.x` and `.y` fields are
read, so a landmark is a pair.  MediaPipe always delivers 468 landmarks, so
the landmark list is modelled as a total function from indices to points. -/

/-- A MediaPipe landmark, `(x, y)` fields only. -/
abbrev LmPoint := ℝ × ℝ

/-- One frame's landmark list. -/
abbrev LmList := ℕ → LmPoint

/-- Euclidean norm of `b - a`, i.e. `np.linalg.norm(b - a)` for 2-vectors. -/
noncomputable def pdist (a b : LmPoint) : ℝ :=
  Real.sqrt ((b.1 - a.1) ^ 2 + (b.2 - a.2) ^ 2)

/-- Mouth height: `norm(landmarks[14] - landmarks[13])`
(expression_driver.py lines 61-66 and 119-121). -/
noncomputable def mouth_height (lm : LmList) : ℝ := pdist (lm 13) (lm 14)

/-- Mouth width: `norm(landmarks[291] - landmarks[61])` (lines 63-67, 124-126). -/
noncomputable def mouth_width (lm : LmList) : ℝ := pdist (lm 61) (lm 291)

/-- Left eye height: `norm(landmarks[145] - landmarks[159])` (lines 73-75, 166-168). -/
noncomputable def left_eye_height (lm : LmList) : ℝ := pdist (lm 159) (lm 145)

/-- Right eye height: `norm(landmarks[374] - landmarks[386])` (lines 79-81, 171-173). -/
noncomputable def right_eye_height (lm : LmList) : ℝ := pdist (lm 386) (lm 374)

/-- Left eyebrow height: `norm(landmarks[70] - landmarks[33])` (lines 86-88, 200-202). -/
noncomputable def left_eyebrow_height (lm : LmList) : ℝ := pdist (lm 33) (lm 70)

/-- Right eyebrow height: `norm(landmarks[300] - landmarks[362])` (lines 92-94, 205-207). -/
noncomputable def right_eyebrow_height (lm : LmList) : ℝ := pdist (lm 362) (lm 300)

/-- `np.mean` of a list of floats. -/
noncomputable def mean (xs : List ℝ) : ℝ := xs.sum / xs.length

/-- `np.clip(x, lo, hi)`. -/
noncomputable def clip (x lo hi : ℝ) : ℝ := min (max x lo) hi

/-- Sensitivity constant `self.mouth_sensitivity = 2.0` (line 24). -/
noncomputable def mouth_sensitivity : ℝ := 2

/-- Sensitivity constant `self.eye_sensitivity = 1.5` (line 25). -/
noncomputable def eye_sensitivity : ℝ := 3 / 2

/-- Sensitivity constant `self.eyebrow_sensitivity = 1.8` (line 26). -/
noncomputable def eyebrow_sensitivity : ℝ := 9 / 5

/-- Smoothing constant `self.smoothing_factor = 0.7` (line 41). -/
noncomputable def driver_smoothing_factor : ℝ := 7 / 10

/-- Mutable state of `AdvancedExpressionDriver` (lines 29-38).  The neutral
mouth height and width are initialised to `None` together and assigned
together by calibration (lines 98-99), so they are bundled in one `Option`;
similarly the left/right entries of each neutral dict (lines 100-103), whose
emptiness is what the detectors test. -/
structure DriverState where
  neutral_mouth : Option (ℝ × ℝ)
  neutral_eye_heights : Option (ℝ × ℝ)
  neutral_eyebrow_heights : Option (ℝ × ℝ)
  prev_mouth_open : ℝ
  prev_smile_level : ℝ
  prev_eye_blink : ℝ × ℝ
  prev_eyebrow_raise : ℝ × ℝ

/-- `calibrate_neutral_expression` (lines 45-111): with fewer than 10 frames
return `False` and touch nothing; otherwise set every neutral baseline to the
mean of the per-frame measurement and return `True`. -/
noncomputable def calibrate_neutral_expression (st : DriverState) (landmarks_list : List LmList) :
    Bool × DriverState :=
  if landmarks_list.length < 10 then
    (false, st)
  else
    (true,
      { st with
        neutral_mouth := some
          (mean (landmarks_list.map mouth_height), mean (landmarks_list.map mouth_width))
        neutral_eye_heights := some
          (mean (landmarks_list.map left_eye_height), mean (landmarks_list.map right_eye_height))
        neutral_eyebrow_heights := some
          (mean (landmarks_list.map left_eyebrow_height),
           mean (landmarks_list.map right_eyebrow_height)) })

/-- `detect_mouth_expression` (lines 113-158).  Returns the `(open, smile)`
scores and the updated state (the unclipped smoothed values are stored back
into `prev_mouth_open` / `prev_smile_level` at lines 152-153, before the
`np.clip` of the return value). -/
noncomputable def detect_mouth_expression (st : DriverState) (lm : LmList) : (ℝ × ℝ) × DriverState :=
  match st.neutral_mouth with
  | none => ((0, 0), st)
  | some (neutral_height, neutral_width) =>
    let current_mouth_height := mouth_height lm
    let current_mouth_width := mouth_width lm
    let corner_left := lm 61
    let corner_right := lm 291
    let baseline_y := (corner_left.2 + corner_right.2) / 2
    let corner_lift_left := baseline_y - corner_left.2
    let corner_lift_right := baseline_y - corner_right.2
    let avg_corner_lift := (corner_lift_left + corner_lift_right) / 2
    let mouth_open_ratio := (current_mouth_height - neutral_height) / neutral_height
    let mouth_open0 := max 0 (mouth_open_ratio * mouth_sensitivity)
    let width_ratio := (current_mouth_width - neutral_width) / neutral_width
    let smile0 := max 0 ((width_ratio + avg_corner_lift * 10) * mouth_sensitivity)
    let mouth_open := st.prev_mouth_open * driver_smoothing_factor
      + mouth_open0 * (1 - driver_smoothing_factor)
    let smile_level := st.prev_smile_level * driver_smoothing_factor
      + smile0 * (1 - driver_smoothing_factor)
    ((clip mouth_open 0 2, clip smile_level 0 (3 / 2)),
      { st with prev_mouth_open := mouth_open, prev_smile_level := smile_level })

/-- `detect_eye_expression` (lines 160-192). -/
noncomputable def detect_eye_expression (st : DriverState) (lm : LmList) : (ℝ × ℝ) × DriverState :=
  match st.neutral_eye_heights with
  | none => ((0, 0), st)
  | some (neutral_left, neutral_right) =>
    let current_left_height := left_eye_height lm
    let current_right_height := right_eye_height lm
    let left_blink_ratio := 1 - current_left_height / neutral_left
    let right_blink_ratio := 1 - current_right_height / neutral_right
    let left_blink0 := max 0 (left_blink_ratio * eye_sensitivity)
    let right_blink0 := max 0 (right_blink_ratio * eye_sensitivity)
    let left_blink := st.prev_eye_blink.1 * driver_smoothing_factor
      + left_blink0 * (1 - driver_smoothing_factor)
    let right_blink := st.prev_eye_blink.2 * driver_smoothing_factor
      + right_blink0 * (1 - driver_smoothing_factor)
    ((clip left_blink 0 1, clip right_blink 0 1),
      { st with prev_eye_blink := (left_blink, right_blink) })

/-- `detect_eyebrow_expression` (lines 194-226). -/
noncomputable def detect_eyebrow_expression (st : DriverState) (lm : LmList) : (ℝ × ℝ) × DriverState :=
  match st.neutral_eyebrow_heights with
  | none => ((0, 0), st)
  | some (neutral_left, neutral_right) =>
    let current_left_height := left_eyebrow_height lm
    let current_right_height := right_eyebrow_height lm
    let left_raise_ratio := (current_left_height - neutral_left) / neutral_left
    let right_raise_ratio := (current_right_height - neutral_right) / neutral_right
    let left_raise0 := max 0 (left_raise_ratio * eyebrow_sensitivity)
    let right_raise0 := max 0 (right_raise_ratio * eyebrow_sensitivity)
    let left_raise := st.prev_eyebrow_raise.1 * driver_smoothing_factor
      + left_raise0 * (1 - driver_smoothing_factor)
    let right_raise := st.prev_eyebrow_raise.2 * driver_smoothing_factor
      + right_raise0 * (1 - driver_smoothing_factor)
    ((clip left_raise 0 (3 / 2), clip right_raise 0 (3 / 2)),
      { st with prev_eyebrow_raise := (left_raise, right_raise) })

/-- An uncalibrated driver state, as built by `__init__` (lines 29-38). -/
noncomputable def initialDriverState : DriverState :=
  { neutral_mouth := none
    neutral_eye_heights := none
    neutral_eyebrow_heights := none
    prev_mouth_open := 0
    prev_smile_level := 0
    prev_eye_blink := (0, 0)
    prev_eyebrow_raise := (0, 0) }

/-! ### Warp geometry — face_warper.py

Pixel coordinates are exact rationals, images are grids of exact rational
intensities indexed row-major (`pix y x`, matching `array[y][x]`).  Masks are
grids of booleans, `true` standing for the value 255 written by
`cv2.fillConvexPoly`.  A `Grid` carries its numpy shape `(height, width)`
alongside the pixel function. -/

/-- A 2D point (x, y). -/
abbrev Pt2 := ℚ × ℚ

/-- A triangle given by its three vertices. -/
abbrev Tri2 := Pt2 × Pt2 × Pt2

/-- A numpy array of shape `(height, width)`, with a total pixel function
(reads outside the shape never occur in the modelled code paths). -/
structure Grid (α : Type) where
  width : ℤ
  height : ℤ
  pix : ℤ → ℤ → α

/-- The 2D cross product `(p1-p0) x (p2-p0)`, exactly the expression used at
face_warper.py lines 217-221 (twice the signed triangle area). -/
def cross2 (p0 p1 p2 : Pt2) : ℚ :=
  (p1.1 - p0.1) * (p2.2 - p0.2) - (p1.2 - p0.2) * (p2.1 - p0.1)

/-- `_is_triangle_flipped` (lines 211-223): the signed areas of source and
destination triangle have strictly opposite signs. -/
def is_triangle_flipped (src_triangle dst_triangle : Tri2) : Bool :=
  let cross_src := cross2 src_triangle.1 src_triangle.2.1 src_triangle.2.2
  let cross_dst := cross2 dst_triangle.1 dst_triangle.2.1 dst_triangle.2.2
  decide (cross_src * cross_dst < 0)

/-- `cv2.contourArea` of a triangle: half the absolute signed area. -/
def contourArea (t : Tri2) : ℚ := |cross2 t.1 t.2.1 t.2.2| / 2

/-- An integer rectangle `(x, y, w, h)` as returned by `cv2.boundingRect`. -/
structure Rect where
  x : ℤ
  y : ℤ
  w : ℤ
  h : ℤ
deriving DecidableEq

/-- `cv2.boundingRect` on floating-point points: `x = floor(min xs)`,
`y = floor(min ys)`, `w = ceil(max xs) - x + 1`, `h = ceil(max ys) - y + 1`. -/
def boundingRect (t : Tri2) : Rect :=
  let xmin := ⌊min t.1.1 (min t.2.1.1 t.2.2.1)⌋
  let ymin := ⌊min t.1.2 (min t.2.1.2 t.2.2.2)⌋
  let xmax := ⌈max t.1.1 (max t.2.1.1 t.2.2.1)⌉
  let ymax := ⌈max t.1.2 (max t.2.1.2 t.2.2.2)⌉
  ⟨xmin, ymin, xmax - xmin + 1, ymax - ymin + 1⟩

/-- Translate a triangle by `(-dx, -dy)`, as in
`src_triangle - np.array([x0, y0])` (lines 188-189). -/
def triTranslate (t : Tri2) (dx dy : ℚ) : Tri2 :=
  ((t.1.1 - dx, t.1.2 - dy), (t.2.1.1 - dx, t.2.1.2 - dy), (t.2.2.1 - dx, t.2.2.2 - dy))

/-- A 2x3 affine matrix `[[a, b, c], [d, e, f]]`. -/
structure Aff where
  a : ℚ
  b : ℚ
  c : ℚ
  d : ℚ
  e : ℚ
  f : ℚ
deriving DecidableEq

/-- Apply an affine matrix to a point. -/
def Aff.applyMap (M : Aff) (p : Pt2) : Pt2 :=
  (M.a * p.1 + M.b * p.2 + M.c, M.d * p.1 + M.e * p.2 + M.f)

/-- The identity affine matrix. -/
def idAff : Aff := ⟨1, 0, 0, 0, 1, 0⟩

/-- `cv2.getAffineTransform(src, dst)`: the unique affine map carrying the
three source vertices to the three destination vertices, in closed form via
Cramer's rule on the edge vectors (the denominator `D` is the source
triangle's signed area, nonzero for the non-degenerate triangles the warp
feeds in). -/
def getAffineTransform : Tri2 → Tri2 → Aff
  | (s0, s1, s2), (t0, t1, t2) =>
    let D := cross2 s0 s1 s2
    let u1x := s1.1 - s0.1
    let u1y := s1.2 - s0.2
    let u2x := s2.1 - s0.1
    let u2y := s2.2 - s0.2
    let v1x := t1.1 - t0.1
    let v1y := t1.2 - t0.2
    let v2x := t2.1 - t0.1
    let v2y := t2.2 - t0.2
    let a := (v1x * u2y - v2x * u1y) / D
    let b := (v2x * u1x - v1x * u2x) / D
    let d := (v1y * u2y - v2y * u1y) / D
    let e := (v2y * u1x - v1y * u2x) / D
    ⟨a, b, t0.1 - a * s0.1 - b * s0.2, d, e, t0.2 - d * s0.1 - e * s0.2⟩

/-- `cv2.invertAffineTransform`: inverse of the 2x3 affine matrix. -/
def invertAffineTransform (M : Aff) : Aff :=
  let det := M.a * M.e - M.b * M.d
  let ia := M.e / det
  let ib := -M.b / det
  let id2 := -M.d / det
  let ie := M.a / det
  ⟨ia, ib, -(ia * M.c + ib * M.f), id2, ie, -(id2 * M.c + ie * M.f)⟩

/-- `cv2.BORDER_REFLECT_101` coordinate folding into `[0, n)`:
reflection without repeating the edge pixel (`gfedcb|abcdefgh|gfedcba`). -/
def borderReflect101 (n : ℤ) (c : ℤ) : ℤ :=
  if n ≤ 1 then 0
  else
    let p := 2 * (n - 1)
    let m := c % p
    if m < n then m else p - m

/-- Bilinear sampling (`cv2.INTER_LINEAR`) of a `h x w` pixel field at a
rational position, with `BORDER_REFLECT_101` handling of out-of-range taps,
in exact arithmetic. -/
def sampleBilinear (pix : ℤ → ℤ → ℚ) (w h : ℤ) (x y : ℚ) : ℚ :=
  let x0 : ℤ := ⌊x⌋
  let y0 : ℤ := ⌊y⌋
  let dx : ℚ := x - x0
  let dy : ℚ := y - y0
  let v00 := pix (borderReflect101 h y0) (borderReflect101 w x0)
  let v01 := pix (borderReflect101 h y0) (borderReflect101 w (x0 + 1))
  let v10 := pix (borderReflect101 h (y0 + 1)) (borderReflect101 w x0)
  let v11 := pix (borderReflect101 h (y0 + 1)) (borderReflect101 w (x0 + 1))
  (1 - dy) * ((1 - dx) * v00 + dx * v01) + dy * ((1 - dx) * v10 + dx * v11)

/-- `cv2.warpAffine(src, M, dsize, INTER_LINEAR, BORDER_REFLECT_101)`:
each destination pixel samples the source at the inverse image of its
centre. -/
def warpAffine (pix : ℤ → ℤ → ℚ) (srcW srcH : ℤ) (M : Aff) : ℤ → ℤ → ℚ :=
  fun y x =>
    let Minv := invertAffineTransform M
    let s := Minv.applyMap ((x : ℚ), (y : ℚ))
    sampleBilinear pix srcW srcH s.1 s.2

/-- Truncation toward zero, the behaviour of the `np.int32` cast applied to
the destination triangle before rasterisation (line 205). -/
def truncQ (q : ℚ) : ℤ := if q < 0 then -⌊-q⌋ else ⌊q⌋

/-- Integer 2D cross product for the rasteriser's inclusion test. -/
def crossZ (a b p : ℤ × ℤ) : ℤ :=
  (b.1 - a.1) * (p.2 - a.2) - (b.2 - a.2) * (p.1 - a.1)

/-- Point-in-triangle test (all edge cross products on one side, boundary
included, either orientation). -/
def pointInTriZ (a b c p : ℤ × ℤ) : Bool :=
  let d1 := crossZ a b p
  let d2 := crossZ b c p
  let d3 := crossZ c a p
  (decide (0 ≤ d1) && decide (0 ≤ d2) && decide (0 ≤ d3)) ||
  (decide (d1 ≤ 0) && decide (d2 ≤ 0) && decide (d3 ≤ 0))

/-- `cv2.fillConvexPoly(mask, np.int32(tri), 255)` on a fresh `h x w` zero
mask: a pixel of the local patch grid is set (`true` = 255) iff it lies in
the triangle spanned by the integer-truncated vertices. -/
def fillConvexPoly (t : Tri2) (w h : ℤ) : ℤ → ℤ → Bool :=
  fun y x =>
    decide (0 ≤ x) && decide (x < w) && decide (0 ≤ y) && decide (y < h) &&
    pointInTriZ (truncQ t.1.1, truncQ t.1.2) (truncQ t.2.1.1, truncQ t.2.1.2)
      (truncQ t.2.2.1, truncQ t.2.2.2) (x, y)

/-- The per-triangle output of `warp_triangle` (lines 174-209): the warped
patch, its local mask, and the destination bounding rectangle
`(rectX, rectY, rectW, rectH)`. -/
structure TrianglePatch where
  patch : ℤ → ℤ → ℚ
  mask : ℤ → ℤ → Bool
  rectX : ℤ
  rectY : ℤ
  rectW : ℤ
  rectH : ℤ

/-- `warp_triangle` (lines 174-209): bounding rectangles of both triangles,
degenerate-rectangle rejection (line 185), local triangle coordinates, ROI
crop of the source, forward affine matrix from the local source triangle to
the local destination triangle, `warpAffine` of the ROI and rasterised local
mask.  `none` models the `return None, None, None` paths, which also cover
the method's own caught exceptions. -/
def warp_triangle (source : Grid ℚ) (src_triangle dst_triangle : Tri2) :
    Option TrianglePatch :=
  let r0 := boundingRect src_triangle
  let r1 := boundingRect dst_triangle
  if r0.w ≤ 0 ∨ r0.h ≤ 0 ∨ r1.w ≤ 0 ∨ r1.h ≤ 0 then none
  else
    let src_tri_local := triTranslate src_triangle (r0.x : ℚ) (r0.y : ℚ)
    let dst_tri_local := triTranslate dst_triangle (r1.x : ℚ) (r1.y : ℚ)
    let src_roi : ℤ → ℤ → ℚ := fun y x => source.pix (r0.y + y) (r0.x + x)
    let M := getAffineTransform src_tri_local dst_tri_local
    some
      { patch := warpAffine src_roi r0.w r0.h M
        mask := fillConvexPoly dst_tri_local r1.w r1.h
        rectX := r1.x
        rectY := r1.y
        rectW := r1.w
        rectH := r1.h }

/-- Fetch the three vertices of a triangle out of a landmark array,
`landmarks[list(triangle_indices)]` (lines 261-262): `none` models the
`IndexError` numpy raises when an index is out of range — this fetch sits
before the `try` of line 266, so that error is not caught. -/
def fetchTri (pts : List Pt2) (t : TriIdx) : Option Tri2 :=
  match pts.get? t.1, pts.get? t.2.1, pts.get? t.2.2 with
  | some p0, some p1, some p2 => some (p0, p1, p2)
  | _, _, _ => none

/-- The accumulation state of the warp loop: the output texture
(`warped_texture`, line 253) and the running coverage mask
(`total_face_mask`, line 254). -/
abbrev WarpAccum := Grid ℚ × Grid Bool

/-- Composite one triangle patch into the accumulation buffers
(lines 282-295): inside the destination rectangle the texture is blended
with the normalised mask (`out = out*(1-m) + patch*m`, where the rasterised
mask value 255 normalises to `m = 1` and 0 to `m = 0`), and the patch mask is
OR-ed into the running coverage mask.  Pixels outside the rectangle are
untouched. -/
def composite (st : WarpAccum) (p : TrianglePatch) : WarpAccum :=
  let inRect : ℤ → ℤ → Bool := fun y x =>
    decide (p.rectY ≤ y) && decide (y < p.rectY + p.rectH) &&
    decide (p.rectX ≤ x) && decide (x < p.rectX + p.rectW)
  ({ st.1 with
      pix := fun y x =>
        if inRect y x then
          let m : ℚ := if p.mask (y - p.rectY) (x - p.rectX) then 1 else 0
          st.1.pix y x * (1 - m) + p.patch (y - p.rectY) (x - p.rectX) * m
        else st.1.pix y x },
   { st.2 with
      pix := fun y x =>
        if inRect y x then st.2.pix y x || p.mask (y - p.rectY) (x - p.rectX)
        else st.2.pix y x })

/-- The body of one iteration of the triangle loop of `warp_face_texture`,
after the vertex fetch succeeded (lines 263-300): flipped-triangle skip
(line 264), caught-exception skip (modelled by `failOracle`: any exception
raised by the OpenCV calls inside the `try` block is turned into a skip by
the `except` of line 298), degenerate-area skip (lines 271-273),
`warp_triangle` failure skip (line 279), and the composite of lines 282-295.
The bounds test before `composite` models the numpy shape agreement required
by the slice assignments of lines 287-295: a rectangle that does not fit the
output array raises inside the `try` and is skipped. -/
def warpTriStep (source : Grid ℚ) (failOracle : TriIdx → Bool) (st : WarpAccum)
    (tri : TriIdx) (src_triangle dst_triangle : Tri2) : WarpAccum :=
  if is_triangle_flipped src_triangle dst_triangle then st
  else if failOracle tri then st
  else if contourArea src_triangle < 1 ∨ contourArea dst_triangle < 1 then st
  else
    match warp_triangle source src_triangle dst_triangle with
    | none => st
    | some p =>
      if 0 ≤ p.rectX ∧ 0 ≤ p.rectY ∧ p.rectX + p.rectW ≤ source.width ∧
          p.rectY + p.rectH ≤ source.height then
        composite st p
      else st

/-- One iteration of the triangle loop of `warp_face_texture`
(lines 259-300): fetch the two vertex triples (lines 261-262, before the
`try`, so an out-of-range index is an uncaught `IndexError`, modelled by
`none`), then run the body. -/
def warpStep (source : Grid ℚ) (srcLm dstLm : List Pt2) (failOracle : TriIdx → Bool)
    (st : WarpAccum) (tri : TriIdx) : Option WarpAccum :=
  match fetchTri srcLm tri, fetchTri dstLm tri with
  | some src_triangle, some dst_triangle =>
    some (warpTriStep source failOracle st tri src_triangle dst_triangle)
  | _, _ => none

/-- The triangle loop of `warp_face_texture` (lines 256-300). -/
def warpLoop (source : Grid ℚ) (srcLm dstLm : List Pt2) (failOracle : TriIdx → Bool)
    (st : WarpAccum) (tris : List TriIdx) : Option WarpAccum :=
  tris.foldlM (warpStep source srcLm dstLm failOracle) st

/-- The zero-initialised accumulation buffers of lines 253-254
(`np.zeros_like(source_image)` and `np.zeros((height, width))`). -/
def initWarpAccum (source : Grid ℚ) : WarpAccum :=
  (⟨source.width, source.height, fun _ _ => 0⟩,
   ⟨source.width, source.height, fun _ _ => false⟩)

/-- `warp_face_texture` (lines 225-303): select the triangulation (updating
the Delaunay cache), then run the triangle loop over zero-initialised
buffers.  Returns the possibly-crashed loop result together with the updated
warper state. -/
def warp_face_texture (w : FaceWarperState) (delaunayResult : List TriIdx)
    (failOracle : TriIdx → Bool) (source : Grid ℚ) (srcLm dstLm : List Pt2) :
    Option WarpAccum × FaceWarperState :=
  let sel := select_use_triangles w delaunayResult
  (warpLoop source srcLm dstLm failOracle (initWarpAccum source) sel.1, sel.2)

/-- The coverage-mask value of a warp result at a pixel (`false` when the
warp raised). -/
def maskAt : Option WarpAccum → ℤ → ℤ → Bool
  | none, _, _ => false
  | some st, y, x => st.2.pix y x

/-- The texture value of a warp result at a pixel (0 when the warp raised). -/
def texAt : Option WarpAccum → ℤ → ℤ → ℚ
  | none, _, _ => 0
  | some st, y, x => st.1.pix y x

/-- All three indices of a triple are in range of an `n`-point landmark
array. -/
def triInBounds (n : ℕ) (t : TriIdx) : Prop :=
  t.1 < n ∧ t.2.1 < n ∧ t.2.2 < n

instance (n : ℕ) (t : TriIdx) : Decidable (triInBounds n t) := by
  unfold triInBounds; infer_instance

/-! ### Concrete fixtures used by the closed witnesses and counterexamples -/

/-- A 4x4 test image with distinct pixel values. -/
def exImage : Grid ℚ := ⟨4, 4, fun y x => (x : ℚ) + 10 * (y : ℚ)⟩

/-- Three landmark points spanning a right triangle inside `exImage`. -/
def exTriPts : List Pt2 := [(0, 0), (3, 0), (0, 3)]

/-- Source landmarks for a flipped-triangle example (counter-clockwise). -/
def exFlipSrc : List Pt2 := [(0, 0), (1, 0), (0, 1)]

/-- Destination landmarks for a flipped-triangle example (clockwise: the
same triangle with two vertices exchanged, so the signed area changes
sign). -/
def exFlipDst : List Pt2 := [(0, 0), (0, 1), (1, 0)]

/-- A warper whose prefiltered table holds the single triangle `(0,1,2)`. -/
def exWarper : FaceWarperState := ⟨[(0, 1, 2)], none⟩

/-- A constant landmark frame for the expression-driver witnesses. -/
noncomputable def constLm : LmList := fun _ => (0, 0)

/-! ## Theorems -/

/-! ### Claim C1 — solvePnP correspondence gate -/

/-- Claim C1 as stated is false: a frame yielding exactly 6 valid 3D-2D
correspondences (landmark list of length 100 against the full 468-vertex
model leaves exactly the pnp indices 1, 10, 19, 33, 70, 94 in range) is
rejected by `update_face_model` without the solver ever being invoked,
because the gate at line 593 requires 8 points, not 6. -/
theorem pnp_gate_six_correspondences_no_solve :
    (gather_correspondences 100 468).length = 6 ∧
    update_face_model_gate true 100 468 = .insufficientPoints 6 := by
  decide

/-- Claim C1, amended: the pose update attempts a PnP solve if and only if
at least 8 valid 3D-2D correspondences were gathered for the frame; with
fewer than 8 (for example exactly 5, 6 or 7) it returns a failure to the
caller without ever invoking the solver. -/
theorem pnp_gate_threshold_eight (numLandmarks numVertices : Nat) :
    (update_face_model_gate true numLandmarks numVertices =
        .solveAttempted (gather_correspondences numLandmarks numVertices).length ↔
      8 ≤ (gather_correspondences numLandmarks numVertices).length) ∧
    ((gather_correspondences numLandmarks numVertices).length < 8 →
      update_face_model_gate true numLandmarks numVertices =
        .insufficientPoints (gather_correspondences numLandmarks numVertices).length) := by
  unfold update_face_model_gate
  simp only [Bool.not_true, Bool.false_eq_true, if_false]
  constructor
  · constructor
    · intro h
      by_contra hlt
      rw [if_pos (Nat.lt_of_not_le hlt)] at h
      exact UpdateOutcome.noConfusion h
    · intro h
      rw [if_neg (Nat.not_lt.mpr h)]
  · intro h
    rw [if_pos h]

/-- Witness for `pnp_gate_threshold_eight`: the full 468-point configuration
yields 19 correspondences and reaches the solver; the 100-landmark
configuration yields 6 and is rejected. -/
theorem pnp_gate_threshold_eight_witness :
    update_face_model_gate true 468 468 = .solveAttempted 19 ∧
    update_face_model_gate true 100 468 = .insufficientPoints 6 := by
  constructor
  · have h := (pnp_gate_threshold_eight 468 468).1.mpr (by decide)
    rw [show (gather_correspondences 468 468).length = 19 from by decide] at h
    exact h
  · have h := (pnp_gate_threshold_eight 100 468).2 (by decide)
    rw [show (gather_correspondences 100 468).length = 6 from by decide] at h
    exact h

/-! ### Claim C2 — calibrated intrinsics are clobbered by the estimate -/

/-- Claim C2 identifies a code bug: even when a calibration record loaded
successfully (`use_solvepnp = true`, `self.K` set, here fx=fy=1000,
cx=640, cy=360), `setup_camera_parameters` leaves the session using the
50mm-estimate intrinsics, because the estimate block at lines 299-315 of
face_matrix_lab_render.py is indented outside the `else:` branch and
unconditionally overwrites `self.fx, self.fy, self.cx, self.cy, self.K,
self.dist`.  This contradicts the function's own docstring ("优先使用标定参数",
prefer calibrated parameters) and the message it prints in the calibrated
branch.  At a 1280x720 working resolution the estimate (fx = 16000/9) is not
the calibrated matrix, and the third conjunct shows the overwrite happens for
every input. -/
theorem calibrated_intrinsics_overwritten_by_estimate :
    setup_camera_parameters true (some ⟨1000, 1000, 640, 360⟩) ⟨0, 0, 0, 0⟩ 1280 720 =
      estimated_intrinsics 1280 720 ∧
    estimated_intrinsics 1280 720 ≠ ⟨1000, 1000, 640, 360⟩ ∧
    ∀ (use_solvepnp : Bool) (loadedK : Option Intrinsics) (init : Intrinsics)
      (width height : ℚ),
      setup_camera_parameters use_solvepnp loadedK init width height =
        estimated_intrinsics width height := by
  refine ⟨rfl, ?_, ?_⟩
  · intro h
    have hfx : (50 : ℚ) / 36 * 1280 = 1000 := congrArg Intrinsics.fx h
    norm_num at hfx
  · intro use_solvepnp loadedK init width height
    rfl

/-! ### Claim C5 — landmark smoother formula -/

/-- Claim C5: `smooth_landmarks` returns the current landmarks unchanged when
no previous value exists, otherwise the elementwise blend
`alpha * previous + (1 - alpha) * current`; a constant input is a fixed point
from the first call onward. -/
theorem smooth_landmarks_spec (current previous : ℕ → ℝ) (alpha : ℝ) :
    smooth_landmarks current none alpha = current ∧
    smooth_landmarks current (some previous) alpha =
      (fun i => alpha * previous i + (1 - alpha) * current i) ∧
    smooth_landmarks current (some current) alpha = current := by
  refine ⟨rfl, rfl, ?_⟩
  funext i
  show alpha * current i + (1 - alpha) * current i = current i
  ring

/-! ### Claim C6 — Delaunay triangulation cache -/

/-- Claim C6: with an empty prefiltered table and an empty cache, the first
warp invocation adopts whatever Delaunay triangulation is computed for it and
caches it; a second invocation returns exactly the cached list and leaves the
state untouched, for any (possibly different) Delaunay result the second
frame would have produced — the triangulation is not recomputed. -/
theorem delaunay_cache_reused (w : FaceWarperState) (d1 d2 : List TriIdx)
    (hvalid : w.valid_triangles = []) (hcache : w.cached_triangles = none) :
    (select_use_triangles w d1).1 = d1 ∧
    select_use_triangles (select_use_triangles w d1).2 d2 =
      ((select_use_triangles w d1).1, (select_use_triangles w d1).2) := by
  obtain ⟨vt, ct⟩ := w
  simp only at hvalid hcache
  subst hvalid hcache
  simp [select_use_triangles]

/-- Witness for `delaunay_cache_reused`: even when the second frame's
Delaunay computation would produce the different list `[(3,4,5)]`, the second
call returns the cached `[(0,1,2)]`. -/
theorem delaunay_cache_reused_witness :
    (select_use_triangles ⟨[], none⟩ [(0, 1, 2)]).1 = [(0, 1, 2)] ∧
    select_use_triangles (select_use_triangles ⟨[], none⟩ [(0, 1, 2)]).2 [(3, 4, 5)] =
      ((select_use_triangles ⟨[], none⟩ [(0, 1, 2)]).1,
        (select_use_triangles ⟨[], none⟩ [(0, 1, 2)]).2) :=
  delaunay_cache_reused ⟨[], none⟩ [(0, 1, 2)] [(3, 4, 5)] rfl rfl

/-! ### Claim C7 — fixed-table filtering -/

/-- Claim C7 as stated is false: the filter at line 63 of face_warper.py only
tests that all three indices are below 468; a degenerate triple with repeated
indices such as `(5, 5, 7)` is retained even though its indices are not
pairwise distinct. -/
theorem filter_keeps_nondistinct_triple :
    (5, 5, 7) ∈ filter_valid_triangles [(5, 5, 7)] ∧ ¬ pairwise_distinct (5, 5, 7) := by
  decide

/-- Claim C7, amended: every index triple retained after filtering the
supplied fixed topology table satisfies the bounds part of the validity
condition — all three indices are below 468, the size of the active landmark
index space.  Pairwise distinctness of the indices is not checked by the
filter. -/
theorem filter_bounds_only (table : List TriIdx) (t : TriIdx)
    (h : t ∈ filter_valid_triangles table) :
    t.1 < 468 ∧ t.2.1 < 468 ∧ t.2.2 < 468 := by
  unfold filter_valid_triangles at h
  have hcond := List.of_mem_filter h
  simpa [and_assoc] using hcond

/-- Witness for `filter_bounds_only` at the concrete table `[(5, 5, 7)]`. -/
theorem filter_bounds_only_witness :
    (5 : Nat) < 468 ∧ (5 : Nat) < 468 ∧ (7 : Nat) < 468 :=
  filter_bounds_only [(5, 5, 7)] (5, 5, 7) (by decide)

/-! ### Claim C9 — neutral-expression calibration -/

/-- Claim C9: with fewer than 10 measurement frames,
`calibrate_neutral_expression` returns `False` and leaves every
neutral-baseline field (and the whole state) unchanged; with at least 10
frames it returns `True` and sets each neutral baseline to the arithmetic
mean of that quantity over the supplied frames. -/
theorem calibrate_neutral_threshold_and_means (st : DriverState) (ll : List LmList) :
    (ll.length < 10 → calibrate_neutral_expression st ll = (false, st)) ∧
    (10 ≤ ll.length → calibrate_neutral_expression st ll =
      (true,
        { st with
          neutral_mouth := some (mean (ll.map mouth_height), mean (ll.map mouth_width))
          neutral_eye_heights := some
            (mean (ll.map left_eye_height), mean (ll.map right_eye_height))
          neutral_eyebrow_heights := some
            (mean (ll.map left_eyebrow_height), mean (ll.map right_eyebrow_height)) })) := by
  constructor
  · intro h
    unfold calibrate_neutral_expression
    rw [if_pos h]
  · intro h
    unfold calibrate_neutral_expression
    rw [if_neg (Nat.not_lt.mpr h)]

/-- Witness for `calibrate_neutral_threshold_and_means`: 3 frames fail and
change nothing; 10 frames succeed. -/
theorem calibrate_neutral_witness :
    calibrate_neutral_expression initialDriverState (List.replicate 3 constLm) =
      (false, initialDriverState) ∧
    (calibrate_neutral_expression initialDriverState (List.replicate 10 constLm)).1 = true := by
  constructor
  · exact (calibrate_neutral_threshold_and_means initialDriverState
      (List.replicate 3 constLm)).1 (by simp)
  · rw [(calibrate_neutral_threshold_and_means initialDriverState
      (List.replicate 10 constLm)).2 (by simp)]

/-! ### Claim C10 — expression score clamping -/

/-- Helper: `np.clip` lands in `[lo, hi]` whenever `lo ≤ hi`. -/
theorem clip_bounds (x lo hi : ℝ) (h : lo ≤ hi) : lo ≤ clip x lo hi ∧ clip x lo hi ≤ hi := by
  unfold clip
  exact ⟨le_min (le_max_right x lo) h, min_le_right _ _⟩

/-- Claim C10: every expression score returned by the detectors is clamped to
its fixed bounded range — mouth open in `[0, 2]`, smile in `[0, 1.5]`, each
eye blink in `[0, 1]`, each eyebrow raise in `[0, 1.5]` — and every score is
exactly 0 whenever the corresponding neutral baseline has not yet been
calibrated. -/
theorem expression_scores_clamped (st : DriverState) (lm : LmList) :
    (0 ≤ (detect_mouth_expression st lm).1.1 ∧ (detect_mouth_expression st lm).1.1 ≤ 2) ∧
    (0 ≤ (detect_mouth_expression st lm).1.2 ∧ (detect_mouth_expression st lm).1.2 ≤ 3 / 2) ∧
    (0 ≤ (detect_eye_expression st lm).1.1 ∧ (detect_eye_expression st lm).1.1 ≤ 1) ∧
    (0 ≤ (detect_eye_expression st lm).1.2 ∧ (detect_eye_expression st lm).1.2 ≤ 1) ∧
    (0 ≤ (detect_eyebrow_expression st lm).1.1 ∧ (detect_eyebrow_expression st lm).1.1 ≤ 3 / 2) ∧
    (0 ≤ (detect_eyebrow_expression st lm).1.2 ∧ (detect_eyebrow_expression st lm).1.2 ≤ 3 / 2) ∧
    (st.neutral_mouth = none → (detect_mouth_expression st lm).1 = (0, 0)) ∧
    (st.neutral_eye_heights = none → (detect_eye_expression st lm).1 = (0, 0)) ∧
    (st.neutral_eyebrow_heights = none → (detect_eyebrow_expression st lm).1 = (0, 0)) := by
  have hm : (0 ≤ (detect_mouth_expression st lm).1.1 ∧ (detect_mouth_expression st lm).1.1 ≤ 2) ∧
      (0 ≤ (detect_mouth_expression st lm).1.2 ∧ (detect_mouth_expression st lm).1.2 ≤ 3 / 2) := by
    unfold detect_mouth_expression
    rcases h : st.neutral_mouth with - | ⟨nh, nw⟩
    · norm_num
    · exact ⟨clip_bounds _ _ _ (by norm_num), clip_bounds _ _ _ (by norm_num)⟩
  have he : (0 ≤ (detect_eye_expression st lm).1.1 ∧ (detect_eye_expression st lm).1.1 ≤ 1) ∧
      (0 ≤ (detect_eye_expression st lm).1.2 ∧ (detect_eye_expression st lm).1.2 ≤ 1) := by
    unfold detect_eye_expression
    rcases h : st.neutral_eye_heights with - | ⟨nl, nr⟩
    · norm_num
    · exact ⟨clip_bounds _ _ _ (by norm_num), clip_bounds _ _ _ (by norm_num)⟩
  have hb : (0 ≤ (detect_eyebrow_expression st lm).1.1 ∧
        (detect_eyebrow_expression st lm).1.1 ≤ 3 / 2) ∧
      (0 ≤ (detect_eyebrow_expression st lm).1.2 ∧ (detect_eyebrow_expression st lm).1.2 ≤ 3 / 2) := by
    unfold detect_eyebrow_expression
    rcases h : st.neutral_eyebrow_heights with - | ⟨nl, nr⟩
    · norm_num
    · exact ⟨clip_bounds _ _ _ (by norm_num), clip_bounds _ _ _ (by norm_num)⟩
  refine ⟨hm.1, hm.2, he.1, he.2, hb.1, hb.2, ?_, ?_, ?_⟩
  · intro h
    unfold detect_mouth_expression
    rw [h]
  · intro h
    unfold detect_eye_expression
    rw [h]
  · intro h
    unfold detect_eyebrow_expression
    rw [h]

/-- Witness for `expression_scores_clamped`: on the freshly-initialised,
uncalibrated driver state every detector reports exactly zero scores. -/
theorem expression_scores_clamped_witness :
    (detect_mouth_expression initialDriverState constLm).1 = (0, 0) ∧
    (detect_eye_expression initialDriverState constLm).1 = (0, 0) ∧
    (detect_eyebrow_expression initialDriverState constLm).1 = (0, 0) := by
  obtain ⟨-, -, -, -, -, -, h1, h2, h3⟩ := expression_scores_clamped initialDriverState constLm
  exact ⟨h1 rfl, h2 rfl, h3 rfl⟩

/-! ### Claim C3 — flipped triangles are skipped entirely -/

/-- Claim C3: a triangle whose source signed area and destination signed area
have strictly opposite signs (their product is negative) is skipped entirely:
processing it returns the accumulation state unchanged — no pixel of the
warped output image and no pixel of the coverage mask is written — and the
triangle loop over a list containing it gives exactly the result of the loop
without it. -/
theorem flipped_triangle_skipped (source : Grid ℚ) (srcLm dstLm : List Pt2)
    (failOracle : TriIdx → Bool) (st : WarpAccum) (tri : TriIdx) (rest : List TriIdx)
    (src_triangle dst_triangle : Tri2)
    (hs : fetchTri srcLm tri = some src_triangle)
    (hd : fetchTri dstLm tri = some dst_triangle)
    (hflip : is_triangle_flipped src_triangle dst_triangle = true) :
    warpStep source srcLm dstLm failOracle st tri = some st ∧
    warpLoop source srcLm dstLm failOracle st (tri :: rest) =
      warpLoop source srcLm dstLm failOracle st rest := by
  have h1 : warpStep source srcLm dstLm failOracle st tri = some st := by
    unfold warpStep
    rw [hs, hd]
    simp [warpTriStep, hflip]
  refine ⟨h1, ?_⟩
  unfold warpLoop
  rw [List.foldlM_cons, h1]
  rfl

unseal Rat.add Rat.mul Rat.inv Rat.sub in
/-- Witness for `flipped_triangle_skipped`: the triangle `(0,1,2)` maps the
counter-clockwise points `[(0,0),(1,0),(0,1)]` (signed area `+1`) to the
clockwise points `[(0,0),(0,1),(1,0)]` (signed area `-1`), so it is flipped
and contributes nothing. -/
theorem flipped_triangle_skipped_witness :
    warpStep exImage exFlipSrc exFlipDst (fun _ => false) (initWarpAccum exImage) (0, 1, 2) =
      some (initWarpAccum exImage) ∧
    warpLoop exImage exFlipSrc exFlipDst (fun _ => false) (initWarpAccum exImage) [(0, 1, 2)] =
      warpLoop exImage exFlipSrc exFlipDst (fun _ => false) (initWarpAccum exImage) [] :=
  flipped_triangle_skipped exImage exFlipSrc exFlipDst (fun _ => false) (initWarpAccum exImage)
    (0, 1, 2) [] ((0, 0), (1, 0), (0, 1)) ((0, 0), (0, 1), (1, 0)) rfl rfl (by decide)

/-! ### Claim C8 — totality and locality of warp failures -/

/-- Helper: the loop body preserves the shapes of both accumulation
buffers. -/
theorem warpTriStep_dims (source : Grid ℚ) (failOracle : TriIdx → Bool) (st : WarpAccum)
    (tri : TriIdx) (s d : Tri2) :
    (warpTriStep source failOracle st tri s d).1.width = st.1.width ∧
    (warpTriStep source failOracle st tri s d).1.height = st.1.height ∧
    (warpTriStep source failOracle st tri s d).2.width = st.2.width ∧
    (warpTriStep source failOracle st tri s d).2.height = st.2.height := by
  unfold warpTriStep
  split
  · exact ⟨rfl, rfl, rfl, rfl⟩
  split
  · exact ⟨rfl, rfl, rfl, rfl⟩
  split
  · exact ⟨rfl, rfl, rfl, rfl⟩
  split
  · exact ⟨rfl, rfl, rfl, rfl⟩
  split
  · exact ⟨rfl, rfl, rfl, rfl⟩
  · exact ⟨rfl, rfl, rfl, rfl⟩

/-- Helper: a triple in bounds of both landmark arrays makes both vertex
fetches succeed. -/
theorem fetchTri_of_inBounds (pts : List Pt2) (t : TriIdx) (h : triInBounds pts.length t) :
    ∃ tr, fetchTri pts t = some tr := by
  obtain ⟨h1, h2, h3⟩ := h
  unfold fetchTri
  rw [List.get?_eq_get h1, List.get?_eq_get h2, List.get?_eq_get h3]
  exact ⟨_, rfl⟩

/-- Helper: over a triangle list whose indices are all in bounds, the loop
never crashes and preserves buffer shapes. -/
theorem warpLoop_total_dims (source : Grid ℚ) (srcLm dstLm : List Pt2)
    (failOracle : TriIdx → Bool) (tris : List TriIdx)
    (hb : ∀ t ∈ tris, triInBounds srcLm.length t ∧ triInBounds dstLm.length t) :
    ∀ st : WarpAccum, ∃ out, warpLoop source srcLm dstLm failOracle st tris = some out ∧
      out.1.width = st.1.width ∧ out.1.height = st.1.height ∧
      out.2.width = st.2.width ∧ out.2.height = st.2.height := by
  induction tris with
  | nil => exact fun st => ⟨st, rfl, rfl, rfl, rfl, rfl⟩
  | cons t ts ih =>
    intro st
    obtain ⟨hsb, hdb⟩ := hb t (List.mem_cons_self t ts)
    obtain ⟨s, hs⟩ := fetchTri_of_inBounds srcLm t hsb
    obtain ⟨d, hd⟩ := fetchTri_of_inBounds dstLm t hdb
    have hstep : warpStep source srcLm dstLm failOracle st t =
        some (warpTriStep source failOracle st t s d) := by
      unfold warpStep
      rw [hs, hd]
    obtain ⟨out, hout, e1, e2, e3, e4⟩ :=
      ih (fun t' ht' => hb t' (List.mem_cons_of_mem t ht'))
        (warpTriStep source failOracle st t s d)
    obtain ⟨d1, d2, d3, d4⟩ := warpTriStep_dims source failOracle st t s d
    refine ⟨out, ?_, by rw [e1, d1], by rw [e2, d2], by rw [e3, d3], by rw [e4, d4]⟩
    unfold warpLoop at hout ⊢
    rw [List.foldlM_cons, hstep]
    exact hout

/-- Claim C8 as stated is false: the vertex fetch
`src_landmarks_pixels[list(triangle_indices)]` at line 261 of face_warper.py
sits before the `try` block, so a triangle referencing a landmark index that
is out of range of the supplied arrays (here index 467 against 3-point
arrays, with the prefiltered 468-point table) raises an uncaught
`IndexError` out of the warp instead of being skipped. -/
theorem warp_raises_on_out_of_range_index :
    (warp_face_texture ⟨[(0, 1, 467)], none⟩ [] (fun _ => false)
        exImage exFlipSrc exFlipSrc).1 = none := by
  rfl

/-- Claim C8, amended: provided every triangle used by the invocation
references only in-range landmark indices, the warp returns normally with a
warped image and a coverage mask of the same height and width as the source
image, and a failure while processing any single triangle (here: any
exception inside the per-triangle `try` block, drawn by `failOracle`) causes
only that triangle to be skipped — the state is returned unchanged — and
never propagates.  A triangle referencing an out-of-range landmark index,
however, raises `IndexError` out of the warp (see
`warp_raises_on_out_of_range_index`). -/
theorem warp_in_bounds_dims_and_local_failure (w : FaceWarperState) (d : List TriIdx)
    (failOracle : TriIdx → Bool) (source : Grid ℚ) (srcLm dstLm : List Pt2)
    (hb : ∀ t ∈ (select_use_triangles w d).1,
      triInBounds srcLm.length t ∧ triInBounds dstLm.length t) :
    (∃ out, (warp_face_texture w d failOracle source srcLm dstLm).1 = some out ∧
      out.1.width = source.width ∧ out.1.height = source.height ∧
      out.2.width = source.width ∧ out.2.height = source.height) ∧
    (∀ (st : WarpAccum) (t : TriIdx) (s d2 : Tri2),
      fetchTri srcLm t = some s → fetchTri dstLm t = some d2 → failOracle t = true →
      warpStep source srcLm dstLm failOracle st t = some st) := by
  constructor
  · obtain ⟨out, hout, e1, e2, e3, e4⟩ :=
      warpLoop_total_dims source srcLm dstLm failOracle _ hb (initWarpAccum source)
    refine ⟨out, ?_, e1, e2, e3, e4⟩
    unfold warp_face_texture
    exact hout
  · intro st t s d2 hs hd hf
    unfold warpStep
    rw [hs, hd]
    simp [warpTriStep, hf]

/-- Witness for `warp_in_bounds_dims_and_local_failure`: with the in-bounds
table `[(0,1,2)]` over 3-point arrays the warp returns buffers of the
source's 4x4 shape, and an oracle that fails on every triangle still leaves
each step a no-op rather than an exception. -/
theorem warp_in_bounds_dims_and_local_failure_witness :
    (∃ out, (warp_face_texture exWarper [] (fun _ => true)
        exImage exFlipSrc exFlipDst).1 = some out ∧
      out.1.width = exImage.width ∧ out.1.height = exImage.height ∧
      out.2.width = exImage.width ∧ out.2.height = exImage.height) ∧
    warpStep exImage exFlipSrc exFlipDst (fun _ => true) (initWarpAccum exImage) (0, 1, 2) =
      some (initWarpAccum exImage) := by
  have h := warp_in_bounds_dims_and_local_failure exWarper [] (fun _ => true)
    exImage exFlipSrc exFlipDst (by decide)
  exact ⟨h.1, h.2 (initWarpAccum exImage) (0, 1, 2) ((0, 0), (1, 0), (0, 1))
    ((0, 0), (0, 1), (1, 0)) rfl rfl rfl⟩

/-! ### Claim C4 — warp identity law (helper lemmas) -/

/-- Helper: the signed area is invariant under translation of the triangle,
so the local triangles used inside `warp_triangle` have the same area as the
originals. -/
theorem cross2_triTranslate (t : Tri2) (dx dy : ℚ) :
    cross2 (triTranslate t dx dy).1 (triTranslate t dx dy).2.1 (triTranslate t dx dy).2.2 =
      cross2 t.1 t.2.1 t.2.2 := by
  obtain ⟨⟨a1, a2⟩, ⟨b1, b2⟩, ⟨c1, c2⟩⟩ := t
  simp only [triTranslate, cross2]
  ring

/-- Helper: the affine transform from a non-degenerate triangle to itself is
the identity matrix. -/
theorem getAffineTransform_self (t : Tri2) (h : cross2 t.1 t.2.1 t.2.2 ≠ 0) :
    getAffineTransform t t = idAff := by
  obtain ⟨⟨a1, a2⟩, ⟨b1, b2⟩, ⟨c1, c2⟩⟩ := t
  simp only [cross2] at h
  simp only [getAffineTransform, idAff, cross2, Aff.mk.injEq]
  refine ⟨?_, ?_, ?_, ?_, ?_, ?_⟩ <;> field_simp <;> ring

/-- Helper: inverting the identity affine transform yields the identity. -/
theorem invertAffineTransform_id : invertAffineTransform idAff = idAff := by
  simp only [invertAffineTransform, idAff, Aff.mk.injEq]
  norm_num

/-- Helper: reflect-101 border folding is the identity on in-range
coordinates. -/
theorem borderReflect101_eq_self (n c : ℤ) (h0 : 0 ≤ c) (h1 : c < n) :
    borderReflect101 n c = c := by
  unfold borderReflect101
  split
  · omega
  · rename_i hn
    have hc : c % (2 * (n - 1)) = c := Int.emod_eq_of_lt h0 (by omega)
    simp only [hc]
    rw [if_pos h1]

/-- Helper: bilinear sampling at an integral in-range position returns the
pixel exactly. -/
theorem sampleBilinear_int (pix : ℤ → ℤ → ℚ) (w h a b : ℤ)
    (ha0 : 0 ≤ a) (haw : a < w) (hb0 : 0 ≤ b) (hbh : b < h) :
    sampleBilinear pix w h (a : ℚ) (b : ℚ) = pix b a := by
  unfold sampleBilinear
  simp only [Int.floor_intCast]
  rw [borderReflect101_eq_self w a ha0 haw, borderReflect101_eq_self h b hb0 hbh]
  ring

/-- Helper: warping with the identity affine transform returns the input
pixel field on in-range coordinates. -/
theorem warpAffine_id (pix : ℤ → ℤ → ℚ) (w h a b : ℤ)
    (ha0 : 0 ≤ a) (haw : a < w) (hb0 : 0 ≤ b) (hbh : b < h) :
    warpAffine pix w h idAff b a = pix b a := by
  unfold warpAffine
  rw [invertAffineTransform_id]
  show sampleBilinear pix w h (idAff.applyMap ((a : ℚ), (b : ℚ))).1
        (idAff.applyMap ((a : ℚ), (b : ℚ))).2 = pix b a
  have happ : idAff.applyMap ((a : ℚ), (b : ℚ)) = ((a : ℚ), (b : ℚ)) := by
    simp [Aff.applyMap, idAff]
  rw [happ]
  exact sampleBilinear_int pix w h a b ha0 haw hb0 hbh

/-- Helper: a bounding rectangle always has positive width and height. -/
theorem boundingRect_pos (t : Tri2) : 0 < (boundingRect t).w ∧ 0 < (boundingRect t).h := by
  obtain ⟨⟨a1, a2⟩, ⟨b1, b2⟩, ⟨c1, c2⟩⟩ := t
  simp only [boundingRect]
  constructor
  · have hle : min a1 (min b1 c1) ≤ max a1 (max b1 c1) :=
      le_trans (min_le_left _ _) (le_max_left _ _)
    have := le_trans (Int.floor_le_floor hle) (Int.floor_le_ceil (max a1 (max b1 c1)))
    omega
  · have hle : min a2 (min b2 c2) ≤ max a2 (max b2 c2) :=
      le_trans (min_le_left _ _) (le_max_left _ _)
    have := le_trans (Int.floor_le_floor hle) (Int.floor_le_ceil (max a2 (max b2 c2)))
    omega

/-- Helper: warping a non-degenerate triangle onto itself succeeds and
produces a patch that reproduces the source image over the whole destination
rectangle (the affine map degenerates to the identity). -/
theorem warp_triangle_self (source : Grid ℚ) (t : Tri2) (hA : ¬ contourArea t < 1) :
    ∃ p, warp_triangle source t t = some p ∧
      p.rectX = (boundingRect t).x ∧ p.rectY = (boundingRect t).y ∧
      p.rectW = (boundingRect t).w ∧ p.rectH = (boundingRect t).h ∧
      ∀ y x : ℤ, 0 ≤ y → y < p.rectH → 0 ≤ x → x < p.rectW →
        p.patch y x = source.pix (p.rectY + y) (p.rectX + x) := by
  have hw := (boundingRect_pos t).1
  have hh := (boundingRect_pos t).2
  have hcross : cross2 t.1 t.2.1 t.2.2 ≠ 0 := by
    intro h0
    apply hA
    unfold contourArea
    rw [h0]
    norm_num
  have hM : getAffineTransform
      (triTranslate t ((boundingRect t).x : ℚ) ((boundingRect t).y : ℚ))
      (triTranslate t ((boundingRect t).x : ℚ) ((boundingRect t).y : ℚ)) = idAff := by
    apply getAffineTransform_self
    rw [cross2_triTranslate]
    exact hcross
  simp only [warp_triangle]
  rw [if_neg (by omega)]
  refine ⟨_, rfl, rfl, rfl, rfl, rfl, ?_⟩
  intro y x hy0 hyh hx0 hxw
  simp only [hM]
  exact warpAffine_id _ (boundingRect t).w (boundingRect t).h x y hx0 hxw hy0 hyh

/-- Helper: compositing a patch that reproduces the source preserves the
invariant that every masked pixel of the accumulation state carries the
source value. -/
theorem composite_preserves_identity (source : Grid ℚ) (st : WarpAccum) (p : TrianglePatch)
    (hp : ∀ y x : ℤ, 0 ≤ y → y < p.rectH → 0 ≤ x → x < p.rectW →
      p.patch y x = source.pix (p.rectY + y) (p.rectX + x))
    (hst : ∀ y x : ℤ, st.2.pix y x = true → st.1.pix y x = source.pix y x) :
    ∀ y x : ℤ, (composite st p).2.pix y x = true →
      (composite st p).1.pix y x = source.pix y x := by
  intro y x
  simp only [composite]
  by_cases hr : (decide (p.rectY ≤ y) && decide (y < p.rectY + p.rectH) &&
      decide (p.rectX ≤ x) && decide (x < p.rectX + p.rectW)) = true
  · rw [if_pos hr, if_pos hr]
    obtain ⟨⟨⟨h1, h2⟩, h3⟩, h4⟩ :
        ((p.rectY ≤ y ∧ y < p.rectY + p.rectH) ∧ p.rectX ≤ x) ∧ x < p.rectX + p.rectW := by
      simpa [Bool.and_eq_true, decide_eq_true_eq, and_assoc] using hr
    intro hm
    by_cases hk : p.mask (y - p.rectY) (x - p.rectX) = true
    · simp only [hk, if_true]
      rw [hp (y - p.rectY) (x - p.rectX) (by omega) (by omega) (by omega) (by omega)]
      have e1 : p.rectY + (y - p.rectY) = y := by ring
      have e2 : p.rectX + (x - p.rectX) = x := by ring
      rw [e1, e2]
      ring
    · rw [Bool.not_eq_true] at hk
      rw [hk, Bool.or_false] at hm
      simp only [hk, Bool.false_eq_true, if_false]
      rw [hst y x hm]
      ring
  · rw [if_neg hr, if_neg hr]
    exact hst y x

/-- Helper: a loop-body step over identical source and destination triangles
preserves the masked-pixels-carry-source invariant. -/
theorem warpTriStep_preserves_identity (source : Grid ℚ) (failOracle : TriIdx → Bool)
    (st : WarpAccum) (tri : TriIdx) (t : Tri2)
    (hst : ∀ y x : ℤ, st.2.pix y x = true → st.1.pix y x = source.pix y x) :
    ∀ y x : ℤ, (warpTriStep source failOracle st tri t t).2.pix y x = true →
      (warpTriStep source failOracle st tri t t).1.pix y x = source.pix y x := by
  unfold warpTriStep
  split
  · exact hst
  split
  · exact hst
  split
  · exact hst
  rename_i hflip hfail hdeg
  have hA : ¬ contourArea t < 1 := fun hlt => hdeg (Or.inl hlt)
  obtain ⟨p, hp, -, -, -, -, hprop⟩ := warp_triangle_self source t hA
  simp only [hp]
  split
  · exact composite_preserves_identity source st p hprop hst
  · exact hst

/-- Helper: the identity warp loop preserves the masked-pixels-carry-source
invariant through any triangle list, any cache state and any failure
oracle. -/
theorem warpLoop_preserves_identity (source : Grid ℚ) (lm : List Pt2)
    (failOracle : TriIdx → Bool) (tris : List TriIdx) :
    ∀ st : WarpAccum, (∀ y x : ℤ, st.2.pix y x = true → st.1.pix y x = source.pix y x) →
    ∀ y x : ℤ, maskAt (warpLoop source lm lm failOracle st tris) y x = true →
      texAt (warpLoop source lm lm failOracle st tris) y x = source.pix y x := by
  induction tris with
  | nil =>
    intro st hst y x
    simp only [warpLoop, List.foldlM_nil]
    exact hst y x
  | cons t ts ih =>
    intro st hst y x
    simp only [warpLoop, List.foldlM_cons]
    cases hstep : warpStep source lm lm failOracle st t with
    | none => simp [maskAt]
    | some st1 =>
      have hinv1 : ∀ y x : ℤ, st1.2.pix y x = true → st1.1.pix y x = source.pix y x := by
        unfold warpStep at hstep
        cases hf : fetchTri lm t with
        | none =>
          rw [hf] at hstep
          exact absurd hstep (by simp)
        | some tr =>
          rw [hf] at hstep
          have heq : warpTriStep source failOracle st t tr tr = st1 := Option.some.inj hstep
          rw [← heq]
          exact warpTriStep_preserves_identity source failOracle st t tr hst
      show maskAt (warpLoop source lm lm failOracle st1 ts) y x = true →
        texAt (warpLoop source lm lm failOracle st1 ts) y x = source.pix y x
      exact ih st1 hinv1 y x

/-- Claim C4: if the destination point set equals the source point set, then
at every pixel set in the returned coverage mask the warped output image
equals the source image at that pixel — exactly, in the exact-arithmetic
model, since each per-triangle affine map is then the identity.  This holds
for every source image, landmark array, cache state and failure oracle. -/
theorem warp_identity_law (w : FaceWarperState) (d : List TriIdx) (failOracle : TriIdx → Bool)
    (source : Grid ℚ) (lm : List Pt2) (y x : ℤ)
    (hm : maskAt (warp_face_texture w d failOracle source lm lm).1 y x = true) :
    texAt (warp_face_texture w d failOracle source lm lm).1 y x = source.pix y x := by
  unfold warp_face_texture at hm ⊢
  refine warpLoop_preserves_identity source lm failOracle _ (initWarpAccum source) ?_ y x hm
  intro y x h
  simp [initWarpAccum] at h

unseal Rat.add Rat.mul Rat.inv Rat.sub in
/-- Witness for `warp_identity_law`: warping `exImage` from `exTriPts` to
itself over the triangle `(0,1,2)` sets the coverage mask at pixel `(1,1)`,
and there the output equals the source pixel. -/
theorem warp_identity_law_witness :
    maskAt (warp_face_texture exWarper [] (fun _ => false) exImage exTriPts exTriPts).1 1 1 =
      true ∧
    texAt (warp_face_texture exWarper [] (fun _ => false) exImage exTriPts exTriPts).1 1 1 =
      exImage.pix 1 1 :=
  ⟨by decide, warp_identity_law exWarper [] (fun _ => false) exImage exTriPts 1 1 (by decide)⟩
